import Mathlib

/-!
Verification of the vim-q-connect MCP server IPC bridge.

The Python sources are shallowly embedded: JSON values become the inductive
`JValue`, Python dicts become association lists with first-match lookup,
the shared `VimState` object becomes a record that is threaded explicitly,
and each handler or tool function becomes a pure Lean function translated
line by line from its Python source.  `json.loads` is treated as an
abstract parse function parameter where framing is modelled; concrete
instantiations are supplied in witness theorems.
-/

set_option maxHeartbeats 1000000

namespace VimQConnect

/-- A parsed JSON value (`json.loads` output).  Numbers are modelled as
integers, which covers every numeric field the bridge manipulates. -/
inductive JValue where
  | null : JValue
  | bool (b : Bool) : JValue
  | num (n : Int) : JValue
  | str (s : String) : JValue
  | arr (elems : List JValue) : JValue
  | obj (fields : List (String × JValue)) : JValue
  deriving Repr

/-- Python `dict.get(k)` / `k in dict` on an association list: first match. -/
def jget (fields : List (String × JValue)) (k : String) : Option JValue :=
  match fields with
  | [] => none
  | (k', v) :: rest => if k' = k then some v else jget rest k

/-- Python `dict[k] = v`: overwrite the binding if the key is present,
otherwise append it (dicts preserve insertion order). -/
def dictInsert (fields : List (String × List (String × JValue)))
    (k : String) (v : List (String × JValue)) :
    List (String × List (String × JValue)) :=
  match fields with
  | [] => [(k, v)]
  | (k', v') :: rest =>
      if k' = k then (k', v) :: rest else (k', v') :: dictInsert rest k v

/-- Python `del dict[k]` (the key is present in every modelled call site). -/
def dictErase (fields : List (String × List (String × JValue)))
    (k : String) : List (String × List (String × JValue)) :=
  fields.filter (fun p => p.1 ≠ k)

/-- Lookup in the response-queue dictionary. -/
def dictFind (fields : List (String × List (String × JValue)))
    (k : String) : Option (List (String × JValue)) :=
  match fields with
  | [] => none
  | (k', v) :: rest => if k' = k then some v else dictFind rest k

/-- `queue.put` on the response queue stored under key `k`
(`vim_state.response_queues[request_id].put(item)`). -/
def dictPut (fields : List (String × List (String × JValue)))
    (k : String) (item : String × JValue) :
    List (String × List (String × JValue)) :=
  fields.map (fun p => if p.1 = k then (p.1, p.2 ++ [item]) else p)

/-- The initial `current_context` built in `VimState.__init__`
(src/mcp-server/vim_state.py, lines 33-47). -/
def initContext : List (String × JValue) :=
  [("context", .str "No context available"),
   ("filename", .str ""),
   ("line", .num 0),
   ("visual_start", .num 0),
   ("visual_end", .num 0),
   ("visual_start_col", .num 0),
   ("visual_end_col", .num 0),
   ("visual_start_line_len", .num 0),
   ("visual_end_line_len", .num 0),
   ("total_lines", .num 0),
   ("modified", .bool false),
   ("encoding", .str ""),
   ("line_endings", .str "")]

/-- The shared state object `VimState` (src/mcp-server/vim_state.py).
`request_queue` holds `(request_type, request_data)` pairs;
`response_queues` maps a request id to the list of `(kind, payload)`
tuples put into that caller's queue.  The lock is not modelled: every
modelled operation is one of the atomic critical sections. -/
structure VimState where
  vim_channel : Option Nat
  vim_connected : Bool
  request_queue : List (String × JValue)
  response_queues : List (String × List (String × JValue))
  current_context : List (String × JValue)
  deriving Repr

/-- The freshly constructed state (`VimState.__init__`). -/
def VimState.init : VimState :=
  { vim_channel := none
    vim_connected := false
    request_queue := []
    response_queues := []
    current_context := initContext }

/-- `VimState.get_context` (vim_state.py, lines 54-57): returns a copy of
the stored snapshot; in the pure model the copy is the value itself. -/
def get_context (s : VimState) : List (String × JValue) :=
  s.current_context

/-- `VimState.is_connected` (vim_state.py, lines 64-67). -/
def is_connected (s : VimState) : Bool :=
  s.vim_connected

/-- `VimState.set_connected` (vim_state.py, lines 59-62). -/
def set_connected (s : VimState) (b : Bool) : VimState :=
  { s with vim_connected := b }

/-- `VimState.update_context` (vim_state.py, lines 49-52). -/
def update_context (s : VimState) (ctx : List (String × JValue)) : VimState :=
  { s with current_context := ctx }

/-- The normalized context dict built by `_handle_context_update`
(src/mcp-server/message_handler.py, lines 51-81): thirteen `params.get`
calls with the defaults written in the source. -/
def normalizeContext (params : List (String × JValue)) :
    List (String × JValue) :=
  [("context", (jget params "context").getD (.str "No context available")),
   ("filename", (jget params "filename").getD (.str "")),
   ("line", (jget params "line").getD (.num 0)),
   ("visual_start", (jget params "visual_start").getD (.num 0)),
   ("visual_end", (jget params "visual_end").getD (.num 0)),
   ("visual_start_col", (jget params "visual_start_col").getD (.num 0)),
   ("visual_end_col", (jget params "visual_end_col").getD (.num 0)),
   ("visual_start_line_len",
     (jget params "visual_start_line_len").getD (.num 0)),
   ("visual_end_line_len",
     (jget params "visual_end_line_len").getD (.num 0)),
   ("total_lines", (jget params "total_lines").getD (.num 0)),
   ("modified", (jget params "modified").getD (.bool false)),
   ("encoding", (jget params "encoding").getD (.str "")),
   ("line_endings", (jget params "line_endings").getD (.str ""))]

/-- `_handle_context_update` (message_handler.py, lines 46-87).
`data["params"]` raises `KeyError` when the key is absent and
`params.get` raises `AttributeError` when `params` is not a dict; both
are caught by the `except` in `handle_vim_message`, leaving the state
unchanged, which the non-`obj` branches model. -/
def handleContextUpdate (data : List (String × JValue)) (s : VimState) :
    VimState :=
  match jget data "params" with
  | some (.obj params) =>
      set_connected (update_context s (normalizeContext params)) true
  | _ => s

/-- The guard `if request_id and request_id in vim_state.response_queues`
(message_handler.py, lines 98 and 108): the value must be a truthy
string that is a key of `response_queues` (the keys are always strings,
so a non-string JSON value never matches a key). -/
def matchedRequestId (s : VimState) (rid : Option JValue) : Option String :=
  match rid with
  | some (.str r) =>
      if r = "" then none
      else match dictFind s.response_queues r with
        | some _ => some r
        | none => none
  | _ => none

/-- `_handle_annotations_response` (message_handler.py, lines 90-99).
`data.get("params", {}).get("annotations", [])` raises when `params` is
present but not a dict; the exception is caught by the caller, so that
branch leaves the state unchanged. -/
def handleAnnotationsResponse (data : List (String × JValue))
    (s : VimState) : VimState :=
  let annotations? : Option JValue :=
    match jget data "params" with
    | none => some (.arr [])
    | some (.obj p) => some ((jget p "annotations").getD (.arr []))
    | some _ => none
  match annotations? with
  | none => s
  | some annotations =>
      match matchedRequestId s (jget data "request_id") with
      | some r =>
          { s with response_queues :=
              dictPut s.response_queues r ("annotations", annotations) }
      | none => s

/-- `_handle_quickfix_response` (message_handler.py, lines 102-109).
`params = data.get("params", {})` never raises. -/
def handleQuickfixResponse (data : List (String × JValue))
    (s : VimState) : VimState :=
  let params : JValue := (jget data "params").getD (.obj [])
  match matchedRequestId s (jget data "request_id") with
  | some r =>
      { s with response_queues :=
          dictPut s.response_queues r ("quickfix_entry", params) }
  | none => s

/-- `handle_vim_message` (message_handler.py, lines 12-43), applied to the
already-parsed JSON value (the function receives the JSON text and calls
`json.loads` itself; the framer only hands it text that parses).  A
non-object value raises `AttributeError` at `data.get`, which the
`except` swallows, so those inputs leave the state unchanged; so does an
unknown method, which matches no branch. -/
def handle_vim_message (data : JValue) (s : VimState) : VimState :=
  match data with
  | .obj fields =>
      match jget fields "method" with
      | some (.str m) =>
          if m = "context_update" then handleContextUpdate fields s
          else if m = "disconnect" then set_connected s false
          else if m = "annotations_response" then
            handleAnnotationsResponse fields s
          else if m = "quickfix_entry_response" then
            handleQuickfixResponse fields s
          else s
      | _ => s
  | _ => s

/-- `_validate_vim_message` (src/mcp-server/socket_server.py, lines 21-61):
the input must be a dict whose `method` is a string, whose `params` (if
present) is a dict, and whose `request_id` (if present) is a string. -/
def validate_vim_message (data : JValue) : Bool :=
  match data with
  | .obj fields =>
      (match jget fields "method" with
       | some (.str _) => true
       | _ => false)
      &&
      (match jget fields "params" with
       | some (.obj _) => true
       | some _ => false
       | none => true)
      &&
      (match jget fields "request_id" with
       | some (.str _) => true
       | some _ => false
       | none => true)
  | _ => false

/-- One accepted connection in `accept_connections`
(socket_server.py, lines 93-95): store the new transport handle and mark
the connection live. -/
def acceptStep (s : VimState) (conn : Nat) : VimState :=
  set_connected { s with vim_channel := some conn } true

/-- A zero-length read in `_listen_to_vim` (socket_server.py, lines
130-133): mark the connection not-live and stop the pump. -/
def zeroReadStep (s : VimState) : VimState :=
  set_connected s false

/-! ### `json.dumps`, used by the annotations tool's success path. -/

/-- One hexadecimal digit, lower case. -/
def hexDigit (n : Nat) : Char :=
  if n < 10 then Char.ofNat (48 + n) else Char.ofNat (87 + n)

/-- Four hexadecimal digits, as in a `\uXXXX` escape. -/
def hex4 (n : Nat) : String :=
  String.mk [hexDigit (n / 4096 % 16), hexDigit (n / 256 % 16),
             hexDigit (n / 16 % 16), hexDigit (n % 16)]

/-- `json.dumps` escaping of one character (default `ensure_ascii=True`):
printable ASCII passes through, the short escapes are used where they
exist, and everything else becomes `\uXXXX` (a surrogate pair beyond the
basic multilingual plane). -/
def escChar (c : Char) : String :=
  if c = '"' then "\\\""
  else if c = '\\' then "\\\\"
  else if c = '\n' then "\\n"
  else if c = '\t' then "\\t"
  else if c = '\r' then "\\r"
  else if c.toNat = 8 then "\\b"
  else if c.toNat = 12 then "\\f"
  else if c.toNat < 32 ∨ c.toNat ≥ 127 then
    if c.toNat < 65536 then "\\u" ++ hex4 c.toNat
    else
      let v := c.toNat - 65536
      "\\u" ++ hex4 (55296 + v / 1024) ++ "\\u" ++ hex4 (56320 + v % 1024)
  else String.singleton c

/-- A JSON string literal as `json.dumps` renders it. -/
def dumpString (s : String) : String :=
  "\"" ++ String.join (s.toList.map escChar) ++ "\""

mutual

/-- `json.dumps` with its default separators. -/
def jdump : JValue → String
  | .null => "null"
  | .bool true => "true"
  | .bool false => "false"
  | .num n => toString n
  | .str s => dumpString s
  | .arr elems => "[" ++ String.intercalate ", " (jdumpList elems) ++ "]"
  | .obj fields =>
      "\x7b" ++ String.intercalate ", " (jdumpFields fields) ++ "\x7d"

/-- `json.dumps` of the elements of an array. -/
def jdumpList : List JValue → List String
  | [] => []
  | x :: xs => jdump x :: jdumpList xs

/-- `json.dumps` of the key/value pairs of an object. -/
def jdumpFields : List (String × JValue) → List String
  | [] => []
  | (k, v) :: xs => (dumpString k ++ ": " ++ jdump v) :: jdumpFields xs

end

/-! ### The MCP tool layer
(src/mcp-server/tools.py, annotations_tools.py, highlights_tools.py).
Each tool takes the shared state and returns its result together with the
updated state.  For the two request/response tools, `request_id` stands
for the generated `uuid.uuid4()` string and `reply` for the outcome of
`response_queue.get(timeout=5.0)`: `none` is the `queue.Empty` timeout,
`some (kind, payload)` a tuple the router put into the slot. -/

/-- Python `value > 0` on a JSON value: defined for numbers and booleans
(Python `bool` is an `int`), a `TypeError` otherwise. -/
def jGt0 : JValue → Option Bool
  | .num n => some (decide (0 < n))
  | .bool b => some b
  | _ => none

/-- `get_editor_context` (tools.py, lines 14-59).  `none` models an
exception (`KeyError`/`TypeError`) escaping the function; on contexts
built by `normalizeContext` every lookup succeeds. -/
def get_editor_context (s : VimState) : Option JValue :=
  if is_connected s = false then
    some (.obj
      [("content", .str "Editor not connected - no context available"),
       ("filename", .str ""),
       ("current_line", .num 0),
       ("visual_selection", .null),
       ("total_lines", .num 0),
       ("modified", .bool false),
       ("encoding", .str ""),
       ("line_endings", .str "")])
  else do
    let ctx := get_context s
    let vs ← jget ctx "visual_start"
    let vsPos ← jGt0 vs
    let visual_selection ←
      if vsPos then do
        let ve ← jget ctx "visual_end"
        let vsc ← jget ctx "visual_start_col"
        let vscPos ← jGt0 vsc
        let useCols ←
          if vscPos then pure true
          else do
            let vec ← jget ctx "visual_end_col"
            jGt0 vec
        if useCols then do
          let vec ← jget ctx "visual_end_col"
          let vsl ← jget ctx "visual_start_line_len"
          let vel ← jget ctx "visual_end_line_len"
          pure (JValue.obj
            [("start_line", vs), ("end_line", ve),
             ("start_col", vsc), ("end_col", vec),
             ("start_line_length", vsl), ("end_line_length", vel)])
        else
          pure (JValue.obj [("start_line", vs), ("end_line", ve)])
      else pure JValue.null
    let content ← jget ctx "context"
    let filename ← jget ctx "filename"
    let line ← jget ctx "line"
    let total ← jget ctx "total_lines"
    let modified ← jget ctx "modified"
    let enc ← jget ctx "encoding"
    let le ← jget ctx "line_endings"
    pure (JValue.obj
      [("content", content),
       ("filename", filename),
       ("current_line", line),
       ("visual_selection", visual_selection),
       ("total_lines", total),
       ("modified", modified),
       ("encoding", enc),
       ("line_endings", le)])

/-- `goto_line` (tools.py, lines 62-93). -/
def goto_line (s : VimState) (line_number : Int) (filename : String) :
    JValue × VimState :=
  if is_connected s = false then (.str "Vim not connected to MCP socket", s)
  else
    (.str ("Navigation command sent: line " ++ toString line_number ++
       (if filename = "" then "" else " in " ++ filename)),
     { s with request_queue := s.request_queue ++
        [("goto_line", .obj
           [("method", .str "goto_line"),
            ("params", .obj
              [("line", .num line_number),
               ("filename", .str filename)])])] })

/-- `add_to_quickfix` (tools.py, lines 96-131). -/
def add_to_quickfix (s : VimState) (entries : List JValue) :
    JValue × VimState :=
  if is_connected s = false then (.str "Vim not connected to MCP socket", s)
  else
    (.str ("Added " ++ toString entries.length ++ " entries to quickfix list"),
     { s with request_queue := s.request_queue ++
        [("add_to_quickfix", .obj
           [("method", .str "add_to_quickfix"),
            ("params", .obj [("entries", .arr entries)])])] })

/-- `get_current_quickfix_entry` (tools.py, lines 134-185): register a
reply slot under the fresh id, enqueue the request, block with a 5 s
timeout, and remove the slot in the `finally` on every exit path. -/
def get_current_quickfix_entry (s : VimState) (request_id : String)
    (reply : Option (String × JValue)) : JValue × VimState :=
  if is_connected s = false then
    (.obj [("error", .str "Vim not connected to MCP socket")], s)
  else
    let s1 : VimState :=
      { s with response_queues :=
          dictInsert s.response_queues request_id [] }
    let cmd : JValue :=
      .obj [("method", .str "get_current_quickfix"),
            ("request_id", .str request_id),
            ("params", .obj [])]
    let s2 : VimState :=
      { s1 with request_queue :=
          s1.request_queue ++ [("get_current_quickfix", cmd)] }
    let result : JValue :=
      match reply with
      | some (t, d) =>
          if t = "quickfix_entry" then d
          else .obj [("error", .str ("Unexpected response type: " ++ t))]
      | none =>
          .obj [("error", .str "Timeout waiting for quickfix entry response")]
    (result, { s2 with response_queues :=
                 dictErase s2.response_queues request_id })

/-- `clear_quickfix` (tools.py, lines 188-209). -/
def clear_quickfix (s : VimState) : JValue × VimState :=
  if is_connected s = false then (.str "Vim not connected to MCP socket", s)
  else
    (.str "Cleared quickfix list",
     { s with request_queue := s.request_queue ++
        [("clear_quickfix", .obj
           [("method", .str "clear_quickfix"),
            ("params", .obj [])])] })

/-- `add_virtual_text` (annotations_tools.py, lines 14-55). -/
def add_virtual_text (s : VimState) (entries : List JValue) :
    JValue × VimState :=
  if is_connected s = false then (.str "Vim not connected to MCP socket", s)
  else
    (.str ("Batch virtual text added: " ++ toString entries.length ++
       " entries"),
     { s with request_queue := s.request_queue ++
        [("add_virtual_text_batch", .obj
           [("method", .str "add_virtual_text_batch"),
            ("params", .obj [("entries", .arr entries)])])] })

/-- `get_annotations_above_current_position`
(annotations_tools.py, lines 58-100): same slot protocol as the quickfix
tool, but returns strings and dumps the payload on success. -/
def get_annotations_above_current_position (s : VimState)
    (request_id : String) (reply : Option (String × JValue)) :
    JValue × VimState :=
  if is_connected s = false then (.str "Vim not connected to MCP socket", s)
  else
    let s1 : VimState :=
      { s with response_queues :=
          dictInsert s.response_queues request_id [] }
    let cmd : JValue :=
      .obj [("method", .str "get_annotations"),
            ("request_id", .str request_id),
            ("params", .obj [])]
    let s2 : VimState :=
      { s1 with request_queue :=
          s1.request_queue ++ [("get_annotations", cmd)] }
    let result : JValue :=
      match reply with
      | some (t, annotations) =>
          if t = "annotations" then .str (jdump annotations)
          else .str ("Unexpected response type: " ++ t)
      | none => .str "Timeout waiting for annotations response"
    (result, { s2 with response_queues :=
                 dictErase s2.response_queues request_id })

/-- `clear_annotations` (annotations_tools.py, lines 103-133); the
`filename` default is `None`, and both `None` and `""` are falsy in the
message formatting. -/
def clear_annotations (s : VimState) (filename : Option String) :
    JValue × VimState :=
  if is_connected s = false then (.str "Vim not connected to MCP socket", s)
  else
    let target :=
      match filename with
      | some f => if f = "" then "from current buffer" else "from " ++ f
      | none => "from current buffer"
    (.str ("Cleared all annotations " ++ target),
     { s with request_queue := s.request_queue ++
        [("clear_annotations", .obj
           [("method", .str "clear_annotations"),
            ("params", .obj
              [("filename",
                match filename with
                | some f => JValue.str f
                | none => JValue.null)])])] })

/-- The colors accepted by `highlight_text`
(highlights_tools.py, line 34). -/
def validColors : List String :=
  ["yellow", "orange", "pink", "green", "blue", "purple"]

/-- One iteration of the entry loop in `highlight_text`
(highlights_tools.py, lines 38-72), folding the processed count and the
state.  An entry without `start_line` or with an invalid color is
skipped; a non-string color is never in the string list, hence also
skipped. -/
def highlightStep (acc : Nat × VimState) (entry : List (String × JValue)) :
    Nat × VimState :=
  match jget entry "start_line" with
  | none => acc
  | some start_line =>
    let end_line := (jget entry "end_line").getD start_line
    let start_col := (jget entry "start_col").getD (.num 1)
    let end_col := (jget entry "end_col").getD (.num (-1))
    let color := (jget entry "color").getD (.str "yellow")
    let virtual_text := (jget entry "virtual_text").getD (.str "")
    match color with
    | .str c =>
        if c ∈ validColors then
          (acc.1 + 1,
           { acc.2 with request_queue := acc.2.request_queue ++
              [("highlight_text", .obj
                 [("method", .str "highlight_text"),
                  ("params", .obj
                    [("start_line", start_line),
                     ("end_line", end_line),
                     ("start_col", start_col),
                     ("end_col", end_col),
                     ("color", .str c),
                     ("virtual_text", virtual_text)])])] })
        else acc
    | _ => acc

/-- `highlight_text` (highlights_tools.py, lines 11-77); `entries` is the
declared `list[dict]`. -/
def highlight_text (s : VimState)
    (entries : List (List (String × JValue))) : JValue × VimState :=
  if is_connected s = false then (.str "Vim not connected to MCP socket", s)
  else
    let r := entries.foldl highlightStep (0, s)
    (.str ("Added " ++ toString r.1 ++ " highlights"), r.2)

/-- `clear_highlights` (highlights_tools.py, lines 80-109). -/
def clear_highlights (s : VimState) (filename : String) :
    JValue × VimState :=
  if is_connected s = false then (.str "Vim not connected to MCP socket", s)
  else
    let target :=
      if filename = "" then "from current buffer" else "from " ++ filename
    (.str ("Cleared all highlights " ++ target),
     { s with request_queue := s.request_queue ++
        [("clear_highlights", .obj
           [("method", .str "clear_highlights"),
            ("params", .obj [("filename", .str filename)])])] })

/-! ### Framing
Two framers exist in the source: the whole-buffer-first framer in
`main.py`'s `listen_to_vim` (lines 526-541) and the newline-only framer
in `socket_server.py`'s `_listen_to_vim` (lines 145-165).  Buffers are
lists of characters; `parse` abstracts `json.loads` (returning `none` on
`json.JSONDecodeError`).  Each framer returns the retained buffer and
the list of parsed messages that reached the dispatch in
`handle_vim_message`, in order. -/

/-- Python `str.strip()` on the characters involved here. -/
def isPyWs (c : Char) : Bool :=
  c = ' ' || c = '\t' || c = '\n' || c = '\r' || c = '\x0b' || c = '\x0c'

/-- Strip leading and trailing whitespace. -/
def stripChars (l : List Char) : List Char :=
  ((l.dropWhile isPyWs).reverse.dropWhile isPyWs).reverse

theorem length_dropWhile_le (p : Char → Bool) (l : List Char) :
    (l.dropWhile p).length ≤ l.length := by
  induction l with
  | nil => simp [List.dropWhile]
  | cons a t ih =>
      rw [List.dropWhile_cons]
      by_cases hpa : p a = true
      · rw [if_pos hpa]; exact Nat.le_succ_of_le ih
      · rw [if_neg hpa]

theorem dropWhile_ne_nil_of_newline {l : List Char} (h : '\n' ∈ l) :
    l.dropWhile (· != '\n') ≠ [] := by
  induction l with
  | nil => cases h
  | cons a t ih =>
      rw [List.dropWhile_cons]
      by_cases ha : a = '\n'
      · subst ha; simp
      · rw [if_pos (by simp [ha])]
        exact ih (by
          rcases List.mem_cons.mp h with h' | h'
          · exact absurd h'.symm ha
          · exact h')

theorem tail_dropWhile_newline_length {l : List Char} (h : '\n' ∈ l) :
    ((l.dropWhile (· != '\n')).tail).length < l.length := by
  have hne := dropWhile_ne_nil_of_newline h
  have h1 := length_dropWhile_le (· != '\n') l
  have h2 : 0 < (l.dropWhile (· != '\n')).length :=
    List.length_pos.mpr hne
  simp only [List.length_tail]
  omega

/-- The inner `while buffer:` framing loop of `listen_to_vim`
(main.py, lines 527-541): first try to parse the whole buffer as one
JSON value (success routes it and clears the buffer); otherwise split
off the first newline-terminated line, route it if it is non-blank and
parses, and continue on the remainder; a newline-free unparseable
buffer is retained for the next read. -/
def processMainBuffer (parse : List Char → Option JValue) :
    List Char → List Char × List JValue
  | [] => ([], [])
  | b :: bs =>
      let buffer := b :: bs
      match parse buffer with
      | some m => ([], [m])
      | none =>
          if h : '\n' ∈ buffer then
            let line := buffer.takeWhile (· != '\n')
            let rest := (buffer.dropWhile (· != '\n')).tail
            let stripped := stripChars line
            let emitted : List JValue :=
              if stripped = [] then []
              else
                match parse stripped with
                | some m => [m]
                | none => []
            let r := processMainBuffer parse rest
            (r.1, emitted ++ r.2)
          else (buffer, [])
  termination_by l => l.length
  decreasing_by exact tail_dropWhile_newline_length h

/-- The `while "\n" in buffer:` framing loop of `_listen_to_vim`
(socket_server.py, lines 147-165): newline-delimited only; each
non-blank line that parses and validates is routed; whatever follows
the last newline is retained. -/
def processSSBuffer (parse : List Char → Option JValue) :
    List Char → List Char × List JValue
  | buffer =>
      if h : '\n' ∈ buffer then
        let line := buffer.takeWhile (· != '\n')
        let rest := (buffer.dropWhile (· != '\n')).tail
        let stripped := stripChars line
        let emitted : List JValue :=
          if stripped = [] then []
          else
            match parse stripped with
            | some m => if validate_vim_message m then [m] else []
            | none => []
        let r := processSSBuffer parse rest
        (r.1, emitted ++ r.2)
      else (buffer, [])
  termination_by buffer => buffer.length
  decreasing_by exact tail_dropWhile_newline_length h

/-! ### UTF-8 decoding (the read step of each pump). -/

/-- A UTF-8 continuation byte. -/
def isCont (b : Nat) : Bool := 128 ≤ b && b ≤ 191

/-- Allowed first continuation byte after a three-byte leader (RFC 3629:
`E0` forbids overlong encodings, `ED` forbids surrogates). -/
def cont1ok3 (b b1 : Nat) : Bool :=
  if b = 224 then 160 ≤ b1 && b1 ≤ 191
  else if b = 237 then 128 ≤ b1 && b1 ≤ 159
  else isCont b1

/-- Allowed first continuation byte after a four-byte leader (`F0`
forbids overlong encodings, `F4` caps at U+10FFFF). -/
def cont1ok4 (b b1 : Nat) : Bool :=
  if b = 240 then 144 ≤ b1 && b1 ≤ 191
  else if b = 244 then 128 ≤ b1 && b1 ≤ 143
  else isCont b1

/-- Python `bytes.decode("utf-8")` with strict errors
(socket_server.py, line 137): `none` is the `UnicodeDecodeError`. -/
def utf8DecodeStrict : List Nat → Option (List Char)
  | [] => some []
  | b :: rest =>
      if b ≤ 127 then
        (utf8DecodeStrict rest).map (fun cs => Char.ofNat b :: cs)
      else if 194 ≤ b && b ≤ 223 then
        match rest with
        | b1 :: rest1 =>
            if isCont b1 then
              (utf8DecodeStrict rest1).map
                (fun cs => Char.ofNat ((b - 192) * 64 + (b1 - 128)) :: cs)
            else none
        | [] => none
      else if 224 ≤ b && b ≤ 239 then
        match rest with
        | b1 :: b2 :: rest2 =>
            if cont1ok3 b b1 && isCont b2 then
              (utf8DecodeStrict rest2).map
                (fun cs => Char.ofNat
                  ((b - 224) * 4096 + (b1 - 128) * 64 + (b2 - 128)) :: cs)
            else none
        | _ => none
      else if 240 ≤ b && b ≤ 244 then
        match rest with
        | b1 :: b2 :: b3 :: rest3 =>
            if cont1ok4 b b1 && isCont b2 && isCont b3 then
              (utf8DecodeStrict rest3).map
                (fun cs => Char.ofNat
                  ((b - 240) * 262144 + (b1 - 128) * 4096 +
                   (b2 - 128) * 64 + (b3 - 128)) :: cs)
            else none
        | _ => none
      else none

/-- The replacement character U+FFFD. -/
def replChar : Char := Char.ofNat 65533

/-- Python `bytes.decode("utf-8", errors="replace")` (main.py, line 517):
an undecodable maximal subpart (the leader plus the continuation bytes
already matched for their positions) becomes one U+FFFD and decoding
resynchronises on the offending byte. -/
def utf8DecodeReplace : List Nat → List Char
  | [] => []
  | b :: rest =>
      if b ≤ 127 then Char.ofNat b :: utf8DecodeReplace rest
      else if 194 ≤ b && b ≤ 223 then
        match rest with
        | b1 :: rest1 =>
            if isCont b1 then
              Char.ofNat ((b - 192) * 64 + (b1 - 128)) ::
                utf8DecodeReplace rest1
            else replChar :: utf8DecodeReplace (b1 :: rest1)
        | [] => [replChar]
      else if 224 ≤ b && b ≤ 239 then
        match rest with
        | b1 :: rest1 =>
            if cont1ok3 b b1 then
              match rest1 with
              | b2 :: rest2 =>
                  if isCont b2 then
                    Char.ofNat
                      ((b - 224) * 4096 + (b1 - 128) * 64 + (b2 - 128)) ::
                      utf8DecodeReplace rest2
                  else replChar :: utf8DecodeReplace (b2 :: rest2)
              | [] => [replChar]
            else replChar :: utf8DecodeReplace (b1 :: rest1)
        | [] => [replChar]
      else if 240 ≤ b && b ≤ 244 then
        match rest with
        | b1 :: rest1 =>
            if cont1ok4 b b1 then
              match rest1 with
              | b2 :: rest2 =>
                  if isCont b2 then
                    match rest2 with
                    | b3 :: rest3 =>
                        if isCont b3 then
                          Char.ofNat
                            ((b - 240) * 262144 + (b1 - 128) * 4096 +
                             (b2 - 128) * 64 + (b3 - 128)) ::
                            utf8DecodeReplace rest3
                        else replChar :: utf8DecodeReplace (b3 :: rest3)
                    | [] => [replChar]
                  else replChar :: utf8DecodeReplace (b2 :: rest2)
              | [] => [replChar]
            else replChar :: utf8DecodeReplace (b1 :: rest1)
        | [] => [replChar]
      else replChar :: utf8DecodeReplace rest
  termination_by l => l.length
  decreasing_by all_goals simp only [List.length_cons] <;> omega

/-- Outcome of one read iteration of a pump: either the zero-length-read
exit (connection marked not-live, loop stops) or a continued loop with
the retained buffer and the messages routed during the iteration. -/
inductive PumpResult where
  | disconnected : PumpResult
  | running (buffer : List Char) (routed : List JValue) : PumpResult
  deriving Repr

/-- One read iteration of `_listen_to_vim` (socket_server.py, lines
128-165): a zero-length read exits; a chunk that fails strict UTF-8
decoding is discarded whole (`continue`) leaving the buffer untouched;
otherwise the decoded text is appended and the newline framer runs. -/
def ssPumpReadStep (parse : List Char → Option JValue)
    (chunk : List Nat) (buffer : List Char) : PumpResult :=
  if chunk = [] then .disconnected
  else
    match utf8DecodeStrict chunk with
    | none => .running buffer []
    | some s =>
        let r := processSSBuffer parse (buffer ++ s)
        .running r.1 r.2

/-- One read iteration of `listen_to_vim` (main.py, lines 516-541): the
chunk is decoded with `errors="replace"` (never failing), the result is
appended to the buffer, and the whole-buffer-first framer runs. -/
def mainPumpReadStep (parse : List Char → Option JValue)
    (chunk : List Nat) (buffer : List Char) : PumpResult :=
  let s := utf8DecodeReplace chunk
  if s = [] then .disconnected
  else
    let r := processMainBuffer parse (buffer ++ s)
    .running r.1 r.2

/-! ### Shared lemmas about the framers and dictionaries. -/

/-- A nonempty buffer that parses whole is routed once and cleared
(the first branch of the `while buffer:` loop in main.py). -/
theorem processMainBuffer_whole (parse : List Char → Option JValue)
    (buffer : List Char) (m : JValue) (hne : buffer ≠ [])
    (h : parse buffer = some m) :
    processMainBuffer parse buffer = ([], [m]) := by
  cases buffer with
  | nil => exact absurd rfl hne
  | cons b bs =>
      rw [processMainBuffer.eq_def]
      simp [h]

/-- A newline-free buffer that fails whole-buffer parsing is retained
with nothing routed. -/
theorem processMainBuffer_incomplete (parse : List Char → Option JValue)
    (buffer : List Char) (hp : parse buffer = none) (hnl : '\n' ∉ buffer) :
    processMainBuffer parse buffer = (buffer, []) := by
  cases buffer with
  | nil => rw [processMainBuffer.eq_def]
  | cons b bs =>
      rw [processMainBuffer.eq_def]
      simp [hp, hnl]

/-- The newline-only framer retains any newline-free buffer untouched. -/
theorem processSSBuffer_noNewline (parse : List Char → Option JValue)
    (buffer : List Char) (hnl : '\n' ∉ buffer) :
    processSSBuffer parse buffer = (buffer, []) := by
  rw [processSSBuffer]
  rw [dif_neg hnl]

theorem takeWhile_append_newline {l : List Char} (h : '\n' ∉ l) :
    (l ++ ['\n']).takeWhile (· != '\n') = l := by
  induction l with
  | nil => simp [List.takeWhile]
  | cons a t ih =>
      have ha : a ≠ '\n' := fun hn => h (hn ▸ List.mem_cons_self a t)
      have ht : '\n' ∉ t := fun hm => h (List.mem_cons_of_mem a hm)
      simp only [List.cons_append, List.takeWhile_cons]
      rw [if_pos (by simp [ha]), ih ht]

theorem dropWhile_append_newline {l : List Char} (h : '\n' ∉ l) :
    (l ++ ['\n']).dropWhile (· != '\n') = ['\n'] := by
  induction l with
  | nil => simp [List.dropWhile]
  | cons a t ih =>
      have ha : a ≠ '\n' := fun hn => h (hn ▸ List.mem_cons_self a t)
      have ht : '\n' ∉ t := fun hm => h (List.mem_cons_of_mem a hm)
      simp only [List.cons_append, List.dropWhile_cons]
      rw [if_pos (by simp [ha]), ih ht]

/-- The newline-only framer on a single complete, valid, newline-terminated
message: routed exactly once, buffer cleared. -/
theorem processSSBuffer_singleLine (parse : List Char → Option JValue)
    (msgText : List Char) (m : JValue) (hnl : '\n' ∉ msgText)
    (hstrip : stripChars msgText ≠ [])
    (hparse : parse (stripChars msgText) = some m)
    (hval : validate_vim_message m = true) :
    processSSBuffer parse (msgText ++ ['\n']) = ([], [m]) := by
  rw [processSSBuffer]
  rw [dif_pos (by simp)]
  simp only [takeWhile_append_newline hnl, dropWhile_append_newline hnl,
    List.tail_cons]
  rw [if_neg hstrip, hparse]
  simp only [hval, if_true]
  rw [processSSBuffer]
  rw [dif_neg (by simp)]
  rfl

/-- After `del`, the registry holds no binding under the erased key. -/
theorem dictFind_dictErase (qs : List (String × List (String × JValue)))
    (k : String) : dictFind (dictErase qs k) k = none := by
  induction qs with
  | nil => rfl
  | cons p rest ih =>
      by_cases hp : p.1 = k
      · simpa [dictErase, List.filter, hp] using ih
      · simpa [dictErase, List.filter, hp, dictFind] using ih

/-! ### The claims. -/

/-- C4: `_validate_vim_message` returns `true` exactly when the parsed
JSON value is an object whose `method` is a string, whose `params` field
(when present) is an object, and whose `request_id` field (when present)
is a string; it is a total Boolean function of its input, so an invalid
value yields `false` with no exception and no state touched. -/
theorem claim_C4 (v : JValue) :
    validate_vim_message v = true ↔
      ∃ fields, v = JValue.obj fields ∧
        (∃ m, jget fields "method" = some (JValue.str m)) ∧
        (∀ p, jget fields "params" = some p →
           ∃ kvs, p = JValue.obj kvs) ∧
        (∀ r, jget fields "request_id" = some r →
           ∃ t, r = JValue.str t) := by
  cases v with
  | null => simp [validate_vim_message]
  | bool b => simp [validate_vim_message]
  | num n => simp [validate_vim_message]
  | str s => simp [validate_vim_message]
  | arr a => simp [validate_vim_message]
  | obj fields =>
      simp only [validate_vim_message, Bool.and_eq_true]
      constructor
      · rintro ⟨⟨h1, h2⟩, h3⟩
        refine ⟨fields, rfl, ?_, ?_, ?_⟩
        · cases hm : jget fields "method" with
          | none => rw [hm] at h1; simp at h1
          | some x =>
              rw [hm] at h1
              cases x with
              | str m => exact ⟨m, rfl⟩
              | null => simp at h1
              | bool b => simp at h1
              | num n => simp at h1
              | arr a => simp at h1
              | obj o => simp at h1
        · intro p hp
          rw [hp] at h2
          cases p with
          | obj kvs => exact ⟨kvs, rfl⟩
          | null => simp at h2
          | bool b => simp at h2
          | num n => simp at h2
          | str t => simp at h2
          | arr a => simp at h2
        · intro r hr
          rw [hr] at h3
          cases r with
          | str t => exact ⟨t, rfl⟩
          | null => simp at h3
          | bool b => simp at h3
          | num n => simp at h3
          | arr a => simp at h3
          | obj o => simp at h3
      · rintro ⟨fields', heq, ⟨m, hm⟩, hp, hr⟩
        injection heq with hf
        subst hf
        refine ⟨⟨?_, ?_⟩, ?_⟩
        · rw [hm]
        · cases hps : jget fields "params" with
          | none => simp
          | some p =>
              obtain ⟨kvs, rfl⟩ := hp p hps
              simp
        · cases hrs : jget fields "request_id" with
          | none => simp
          | some r =>
              obtain ⟨t, rfl⟩ := hr r hrs
              simp

/-- C5: the connection flag is `true` right after an accept, `false`
after a zero-length read and after processing a message whose `method`
is `"disconnect"`, and a subsequent accept makes it `true` again
whatever the prior state was. -/
theorem claim_C5 (s : VimState) (conn : Nat)
    (fields : List (String × JValue))
    (hmethod : jget fields "method" = some (JValue.str "disconnect")) :
    is_connected (acceptStep s conn) = true ∧
    is_connected (zeroReadStep s) = false ∧
    is_connected (handle_vim_message (.obj fields) s) = false ∧
    is_connected (acceptStep (zeroReadStep s) conn) = true ∧
    is_connected
      (acceptStep (handle_vim_message (.obj fields) s) conn) = true := by
  have hd : handle_vim_message (.obj fields) s = set_connected s false := by
    simp [handle_vim_message, hmethod]
  refine ⟨rfl, rfl, ?_, rfl, ?_⟩
  · rw [hd]; rfl
  · rw [hd]; rfl

/-- Witness for C5 at the concrete message
`\x7b"method": "disconnect"\x7d` and the freshly initialised state. -/
theorem claim_C5_witness :
    is_connected (acceptStep VimState.init 0) = true ∧
    is_connected (zeroReadStep VimState.init) = false ∧
    is_connected (handle_vim_message
      (.obj [("method", .str "disconnect")]) VimState.init) = false ∧
    is_connected (acceptStep (zeroReadStep VimState.init) 0) = true ∧
    is_connected (acceptStep (handle_vim_message
      (.obj [("method", .str "disconnect")]) VimState.init) 0) = true :=
  claim_C5 VimState.init 0 [("method", .str "disconnect")] rfl

/-- The put-guard finds nothing when the registry has no binding under
the reply's request id. -/
theorem matchedRequestId_none (s : VimState) (r : String)
    (hq : dictFind s.response_queues r = none) :
    matchedRequestId s (some (.str r)) = none := by
  by_cases hr0 : r = "" <;> simp [matchedRequestId, hr0, hq]

/-- A quickfix reply whose id has no registered slot changes nothing. -/
theorem handleQuickfixResponse_noslot (fields : List (String × JValue))
    (s : VimState) (r : String)
    (hr : jget fields "request_id" = some (.str r))
    (hq : dictFind s.response_queues r = none) :
    handleQuickfixResponse fields s = s := by
  simp [handleQuickfixResponse, hr, matchedRequestId_none s r hq]

/-- An annotations reply whose id has no registered slot changes
nothing, whatever shape its `params` has. -/
theorem handleAnnotationsResponse_noslot (fields : List (String × JValue))
    (s : VimState) (r : String)
    (hr : jget fields "request_id" = some (.str r))
    (hq : dictFind s.response_queues r = none) :
    handleAnnotationsResponse fields s = s := by
  simp only [handleAnnotationsResponse, hr, matchedRequestId_none s r hq]
  cases hp : jget fields "params" with
  | none => simp
  | some p => cases p <;> simp

/-- The defaults `_handle_context_update` applies per field
(message_handler.py, lines 52-80): the `context` string defaults to
`"No context available"`, the other strings to `""`, numerics to `0`,
the boolean to `False`. -/
def ctxDefaults : List (String × JValue) :=
  [("context", .str "No context available"),
   ("filename", .str ""),
   ("line", .num 0),
   ("visual_start", .num 0),
   ("visual_end", .num 0),
   ("visual_start_col", .num 0),
   ("visual_end_col", .num 0),
   ("visual_start_line_len", .num 0),
   ("visual_end_line_len", .num 0),
   ("total_lines", .num 0),
   ("modified", .bool false),
   ("encoding", .str ""),
   ("line_endings", .str "")]

/-- Every field of the normalized context is the provided value when
present and the tabulated default otherwise. -/
theorem jget_normalizeContext (params : List (String × JValue))
    (k : String) (d : JValue) (hk : (k, d) ∈ ctxDefaults) :
    jget (normalizeContext params) k = some ((jget params k).getD d) := by
  fin_cases hk <;> simp [normalizeContext, jget]

/-- C1 counterexample: for the valid `context_update` message whose
`params` object is empty, the stored context's omitted `context` string
field is `"No context available"`, not the empty string the claim
requires for every omitted string field. -/
theorem claim_C1_counterexample :
    validate_vim_message (.obj
      [("method", .str "context_update"), ("params", .obj [])]) = true ∧
    jget (get_context (handle_vim_message
      (.obj [("method", .str "context_update"), ("params", .obj [])])
      VimState.init)) "context" = some (.str "No context available") ∧
    JValue.str "No context available" ≠ JValue.str "" := by
  refine ⟨rfl, rfl, ?_⟩
  intro h
  injection h with h'
  exact absurd h' (by decide)

/-- C1 (amended): processing a valid `context_update` message stores the
normalized context in which every omitted field gets its tabulated
default — the empty string for every omitted string field except
`context`, which defaults to `"No context available"`; `0` for numeric
fields; `false` for the boolean — while every provided field keeps its
exact provided value; `get_context` then returns exactly this dict and
the connection is marked live. -/
theorem claim_C1_amended (fields params : List (String × JValue))
    (s : VimState)
    (hval : validate_vim_message (.obj fields) = true)
    (hmethod : jget fields "method" = some (.str "context_update"))
    (hparams : jget fields "params" = some (.obj params)) :
    get_context (handle_vim_message (.obj fields) s) =
      normalizeContext params ∧
    is_connected (handle_vim_message (.obj fields) s) = true ∧
    (∀ k d, (k, d) ∈ ctxDefaults → jget params k = none →
       jget (get_context (handle_vim_message (.obj fields) s)) k =
         some d) ∧
    (∀ k d v, (k, d) ∈ ctxDefaults → jget params k = some v →
       jget (get_context (handle_vim_message (.obj fields) s)) k =
         some v) := by
  have hh : handle_vim_message (.obj fields) s =
      set_connected (update_context s (normalizeContext params)) true := by
    simp [handle_vim_message, hmethod, handleContextUpdate, hparams]
  rw [hh]
  refine ⟨rfl, rfl, ?_, ?_⟩
  · intro k d hk hnone
    have hjn := jget_normalizeContext params k d hk
    show jget (normalizeContext params) k = some d
    rw [hjn, hnone]
    rfl
  · intro k d v hk hsome
    have hjn := jget_normalizeContext params k d hk
    show jget (normalizeContext params) k = some v
    rw [hjn, hsome]
    rfl

/-- Witness for the amended C1: the spec's own scenario message
(`filename "a.go"`, `line 5`, everything else omitted). -/
theorem claim_C1_witness :
    get_context (handle_vim_message (.obj
      [("method", .str "context_update"),
       ("params", .obj [("filename", .str "a.go"), ("line", .num 5)])])
      VimState.init) =
      normalizeContext [("filename", .str "a.go"), ("line", .num 5)] ∧
    is_connected (handle_vim_message (.obj
      [("method", .str "context_update"),
       ("params", .obj [("filename", .str "a.go"), ("line", .num 5)])])
      VimState.init) = true ∧
    jget (get_context (handle_vim_message (.obj
      [("method", .str "context_update"),
       ("params", .obj [("filename", .str "a.go"), ("line", .num 5)])])
      VimState.init)) "filename" = some (.str "a.go") ∧
    jget (get_context (handle_vim_message (.obj
      [("method", .str "context_update"),
       ("params", .obj [("filename", .str "a.go"), ("line", .num 5)])])
      VimState.init)) "line" = some (.num 5) ∧
    jget (get_context (handle_vim_message (.obj
      [("method", .str "context_update"),
       ("params", .obj [("filename", .str "a.go"), ("line", .num 5)])])
      VimState.init)) "total_lines" = some (.num 0) ∧
    jget (get_context (handle_vim_message (.obj
      [("method", .str "context_update"),
       ("params", .obj [("filename", .str "a.go"), ("line", .num 5)])])
      VimState.init)) "modified" = some (.bool false) :=
  ⟨(claim_C1_amended
      [("method", .str "context_update"),
       ("params", .obj [("filename", .str "a.go"), ("line", .num 5)])]
      [("filename", .str "a.go"), ("line", .num 5)]
      VimState.init rfl rfl rfl).1,
   (claim_C1_amended
      [("method", .str "context_update"),
       ("params", .obj [("filename", .str "a.go"), ("line", .num 5)])]
      [("filename", .str "a.go"), ("line", .num 5)]
      VimState.init rfl rfl rfl).2.1,
   (claim_C1_amended
      [("method", .str "context_update"),
       ("params", .obj [("filename", .str "a.go"), ("line", .num 5)])]
      [("filename", .str "a.go"), ("line", .num 5)]
      VimState.init rfl rfl rfl).2.2.2 "filename" (.str "") (.str "a.go")
      (by simp [ctxDefaults]) rfl,
   (claim_C1_amended
      [("method", .str "context_update"),
       ("params", .obj [("filename", .str "a.go"), ("line", .num 5)])]
      [("filename", .str "a.go"), ("line", .num 5)]
      VimState.init rfl rfl rfl).2.2.2 "line" (.num 0) (.num 5)
      (by simp [ctxDefaults]) rfl,
   (claim_C1_amended
      [("method", .str "context_update"),
       ("params", .obj [("filename", .str "a.go"), ("line", .num 5)])]
      [("filename", .str "a.go"), ("line", .num 5)]
      VimState.init rfl rfl rfl).2.2.1 "total_lines" (.num 0)
      (by simp [ctxDefaults]) rfl,
   (claim_C1_amended
      [("method", .str "context_update"),
       ("params", .obj [("filename", .str "a.go"), ("line", .num 5)])]
      [("filename", .str "a.go"), ("line", .num 5)]
      VimState.init rfl rfl rfl).2.2.1 "modified" (.bool false)
      (by simp [ctxDefaults]) rfl⟩

/-- C9: on a connected state holding any normalized context,
`get_editor_context` returns `visual_selection = null` exactly when
`visual_start ≤ 0`; when `visual_start > 0` the selection object carries
`start_line`/`end_line`, and it carries the four column/length keys
exactly when `visual_start_col > 0` or `visual_end_col > 0`. -/
theorem claim_C9 (content filename enc le : String)
    (line vs ve vsc vec vsl vel total : Int) (modified : Bool) :
    ∃ fields,
      get_editor_context
        { vim_channel := none, vim_connected := true, request_queue := [],
          response_queues := [],
          current_context := normalizeContext
            [("context", .str content), ("filename", .str filename),
             ("line", .num line), ("visual_start", .num vs),
             ("visual_end", .num ve), ("visual_start_col", .num vsc),
             ("visual_end_col", .num vec),
             ("visual_start_line_len", .num vsl),
             ("visual_end_line_len", .num vel),
             ("total_lines", .num total), ("modified", .bool modified),
             ("encoding", .str enc), ("line_endings", .str le)] } =
        some (.obj fields) ∧
      (vs ≤ 0 → jget fields "visual_selection" = some .null) ∧
      (0 < vs → ∃ sel,
         jget fields "visual_selection" = some (.obj sel) ∧
         jget sel "start_line" = some (.num vs) ∧
         jget sel "end_line" = some (.num ve) ∧
         ((0 < vsc ∨ 0 < vec) →
            jget sel "start_col" = some (.num vsc) ∧
            jget sel "end_col" = some (.num vec) ∧
            jget sel "start_line_length" = some (.num vsl) ∧
            jget sel "end_line_length" = some (.num vel)) ∧
         (¬(0 < vsc ∨ 0 < vec) →
            jget sel "start_col" = none ∧
            jget sel "end_col" = none ∧
            jget sel "start_line_length" = none ∧
            jget sel "end_line_length" = none)) := by
  by_cases hvs : 0 < vs
  · have h1 : decide (0 < vs) = true := decide_eq_true hvs
    by_cases hvsc : 0 < vsc
    · have h2 : decide (0 < vsc) = true := decide_eq_true hvsc
      refine ⟨[("content", .str content), ("filename", .str filename),
        ("current_line", .num line),
        ("visual_selection", .obj
           [("start_line", .num vs), ("end_line", .num ve),
            ("start_col", .num vsc), ("end_col", .num vec),
            ("start_line_length", .num vsl),
            ("end_line_length", .num vel)]),
        ("total_lines", .num total), ("modified", .bool modified),
        ("encoding", .str enc), ("line_endings", .str le)], ?_, ?_, ?_⟩
      · simp [get_editor_context, is_connected, get_context,
          normalizeContext, jget, jGt0, h1, h2, Option.bind]
      · intro hle; exfalso; omega
      · intro _
        refine ⟨[("start_line", .num vs), ("end_line", .num ve),
          ("start_col", .num vsc), ("end_col", .num vec),
          ("start_line_length", .num vsl),
          ("end_line_length", .num vel)], rfl, rfl, rfl, ?_, ?_⟩
        · intro _; exact ⟨rfl, rfl, rfl, rfl⟩
        · intro hn; exact absurd (Or.inl hvsc) hn
    · have h2 : decide (0 < vsc) = false := decide_eq_false hvsc
      by_cases hvec : 0 < vec
      · have h3 : decide (0 < vec) = true := decide_eq_true hvec
        refine ⟨[("content", .str content), ("filename", .str filename),
          ("current_line", .num line),
          ("visual_selection", .obj
             [("start_line", .num vs), ("end_line", .num ve),
              ("start_col", .num vsc), ("end_col", .num vec),
              ("start_line_length", .num vsl),
              ("end_line_length", .num vel)]),
          ("total_lines", .num total), ("modified", .bool modified),
          ("encoding", .str enc), ("line_endings", .str le)], ?_, ?_, ?_⟩
        · simp [get_editor_context, is_connected, get_context,
            normalizeContext, jget, jGt0, h1, h2, h3, Option.bind]
        · intro hle; exfalso; omega
        · intro _
          refine ⟨[("start_line", .num vs), ("end_line", .num ve),
            ("start_col", .num vsc), ("end_col", .num vec),
            ("start_line_length", .num vsl),
            ("end_line_length", .num vel)], rfl, rfl, rfl, ?_, ?_⟩
          · intro _; exact ⟨rfl, rfl, rfl, rfl⟩
          · intro hn; exact absurd (Or.inr hvec) hn
      · have h3 : decide (0 < vec) = false := decide_eq_false hvec
        refine ⟨[("content", .str content), ("filename", .str filename),
          ("current_line", .num line),
          ("visual_selection", .obj
             [("start_line", .num vs), ("end_line", .num ve)]),
          ("total_lines", .num total), ("modified", .bool modified),
          ("encoding", .str enc), ("line_endings", .str le)], ?_, ?_, ?_⟩
        · simp [get_editor_context, is_connected, get_context,
            normalizeContext, jget, jGt0, h1, h2, h3, Option.bind]
        · intro hle; exfalso; omega
        · intro _
          refine ⟨[("start_line", .num vs), ("end_line", .num ve)],
            rfl, rfl, rfl, ?_, ?_⟩
          · intro hc; exact absurd hc (by push_neg; omega)
          · intro _; exact ⟨rfl, rfl, rfl, rfl⟩
  · have h1 : decide (0 < vs) = false := decide_eq_false hvs
    refine ⟨[("content", .str content), ("filename", .str filename),
      ("current_line", .num line), ("visual_selection", .null),
      ("total_lines", .num total), ("modified", .bool modified),
      ("encoding", .str enc), ("line_endings", .str le)], ?_, ?_, ?_⟩
    · simp [get_editor_context, is_connected, get_context,
        normalizeContext, jget, jGt0, h1, Option.bind]
    · intro _; rfl
    · intro hpos; exact absurd hpos hvs

/-- C6: both request/response tools remove their own reply slot on every
exit path (reply received, unexpected reply kind, timeout), so after the
call returns the registry holds no slot under the generated request id. -/
theorem claim_C6 (s : VimState) (request_id : String)
    (reply : Option (String × JValue))
    (hconn : is_connected s = true) :
    dictFind ((get_current_quickfix_entry s request_id
      reply).2).response_queues request_id = none ∧
    dictFind ((get_annotations_above_current_position s request_id
      reply).2).response_queues request_id = none := by
  constructor
  · simp only [get_current_quickfix_entry, hconn]
    simp only [Bool.true_eq_false, if_false]
    exact dictFind_dictErase _ _
  · simp only [get_annotations_above_current_position, hconn]
    simp only [Bool.true_eq_false, if_false]
    exact dictFind_dictErase _ _

/-- Witness for C6: a connected state, a concrete id, and each of the
three reply shapes. -/
theorem claim_C6_witness :
    (dictFind ((get_current_quickfix_entry (acceptStep VimState.init 0)
      "id-1" none).2).response_queues "id-1" = none ∧
     dictFind ((get_annotations_above_current_position
      (acceptStep VimState.init 0) "id-1" none).2).response_queues
      "id-1" = none) ∧
    (dictFind ((get_current_quickfix_entry (acceptStep VimState.init 0)
      "id-1" (some ("quickfix_entry", .obj []))).2).response_queues
      "id-1" = none) ∧
    (dictFind ((get_current_quickfix_entry (acceptStep VimState.init 0)
      "id-1" (some ("bogus", .obj []))).2).response_queues
      "id-1" = none) :=
  ⟨claim_C6 (acceptStep VimState.init 0) "id-1" none rfl,
   (claim_C6 (acceptStep VimState.init 0) "id-1"
     (some ("quickfix_entry", .obj [])) rfl).1,
   (claim_C6 (acceptStep VimState.init 0) "id-1"
     (some ("bogus", .obj [])) rfl).1⟩

/-- C3: with no correlated reply within the timeout both
request/response tools return their explicit timeout result, and a
reply message routed after the slot was removed (no binding under its
request id) leaves the state completely unchanged. -/
theorem claim_C3 (s : VimState) (request_id : String)
    (hconn : is_connected s = true) :
    (get_current_quickfix_entry s request_id none).1 =
      .obj [("error", .str "Timeout waiting for quickfix entry response")] ∧
    (get_annotations_above_current_position s request_id none).1 =
      .str "Timeout waiting for annotations response" ∧
    (∀ fields r,
       jget fields "method" = some (.str "quickfix_entry_response") →
       jget fields "request_id" = some (.str r) →
       dictFind s.response_queues r = none →
       handle_vim_message (.obj fields) s = s) ∧
    (∀ fields r,
       jget fields "method" = some (.str "annotations_response") →
       jget fields "request_id" = some (.str r) →
       dictFind s.response_queues r = none →
       handle_vim_message (.obj fields) s = s) := by
  refine ⟨?_, ?_, ?_, ?_⟩
  · simp [get_current_quickfix_entry, hconn]
  · simp [get_annotations_above_current_position, hconn]
  · intro fields r hm hr hq
    simp only [handle_vim_message, hm]
    simp only [String.reduceEq, if_false, if_true, reduceIte]
    exact handleQuickfixResponse_noslot fields s r hr hq
  · intro fields r hm hr hq
    simp only [handle_vim_message, hm]
    simp only [String.reduceEq, if_false, if_true, reduceIte]
    exact handleAnnotationsResponse_noslot fields s r hr hq

/-- Witness for C3: a connected state with an empty registry, the
timeout outcome of both tools, and one concrete late reply of each kind
discarded without a state change. -/
theorem claim_C3_witness :
    (get_current_quickfix_entry (acceptStep VimState.init 0) "id-2"
      none).1 =
      .obj [("error", .str "Timeout waiting for quickfix entry response")] ∧
    (get_annotations_above_current_position (acceptStep VimState.init 0)
      "id-2" none).1 =
      .str "Timeout waiting for annotations response" ∧
    handle_vim_message (.obj
      [("method", .str "quickfix_entry_response"),
       ("request_id", .str "gone"), ("params", .obj [])])
      (acceptStep VimState.init 0) = acceptStep VimState.init 0 ∧
    handle_vim_message (.obj
      [("method", .str "annotations_response"),
       ("request_id", .str "gone"),
       ("params", .obj [("annotations", .arr [])])])
      (acceptStep VimState.init 0) = acceptStep VimState.init 0 :=
  ⟨(claim_C3 (acceptStep VimState.init 0) "id-2" rfl).1,
   (claim_C3 (acceptStep VimState.init 0) "id-2" rfl).2.1,
   (claim_C3 (acceptStep VimState.init 0) "id-2" rfl).2.2.1
     [("method", .str "quickfix_entry_response"),
      ("request_id", .str "gone"), ("params", .obj [])] "gone" rfl rfl rfl,
   (claim_C3 (acceptStep VimState.init 0) "id-2" rfl).2.2.2
     [("method", .str "annotations_response"),
      ("request_id", .str "gone"),
      ("params", .obj [("annotations", .arr [])])] "gone" rfl rfl rfl⟩

/-- C7: with the connection flag down, every outward-facing tool
operation returns its "not connected" result and leaves the state — in
particular the outbound request queue — completely unchanged. -/
theorem claim_C7 (s : VimState) (hconn : is_connected s = false)
    (line_number : Int) (filename fname2 : String)
    (entries entriesV : List JValue)
    (hentries : List (List (String × JValue)))
    (request_id : String) (reply : Option (String × JValue))
    (ofname : Option String) :
    get_editor_context s = some (.obj
      [("content", .str "Editor not connected - no context available"),
       ("filename", .str ""),
       ("current_line", .num 0),
       ("visual_selection", .null),
       ("total_lines", .num 0),
       ("modified", .bool false),
       ("encoding", .str ""),
       ("line_endings", .str "")]) ∧
    goto_line s line_number filename =
      (.str "Vim not connected to MCP socket", s) ∧
    add_to_quickfix s entries =
      (.str "Vim not connected to MCP socket", s) ∧
    get_current_quickfix_entry s request_id reply =
      (.obj [("error", .str "Vim not connected to MCP socket")], s) ∧
    clear_quickfix s = (.str "Vim not connected to MCP socket", s) ∧
    add_virtual_text s entriesV =
      (.str "Vim not connected to MCP socket", s) ∧
    get_annotations_above_current_position s request_id reply =
      (.str "Vim not connected to MCP socket", s) ∧
    clear_annotations s ofname =
      (.str "Vim not connected to MCP socket", s) ∧
    highlight_text s hentries =
      (.str "Vim not connected to MCP socket", s) ∧
    clear_highlights s fname2 =
      (.str "Vim not connected to MCP socket", s) := by
  refine ⟨?_, ?_, ?_, ?_, ?_, ?_, ?_, ?_, ?_, ?_⟩ <;>
    simp [get_editor_context, goto_line, add_to_quickfix,
      get_current_quickfix_entry, clear_quickfix, add_virtual_text,
      get_annotations_above_current_position, clear_annotations,
      highlight_text, clear_highlights, hconn]

/-- Witness for C7: the freshly initialised (disconnected) state and
concrete arguments for every tool. -/
theorem claim_C7_witness :
    get_editor_context VimState.init = some (.obj
      [("content", .str "Editor not connected - no context available"),
       ("filename", .str ""),
       ("current_line", .num 0),
       ("visual_selection", .null),
       ("total_lines", .num 0),
       ("modified", .bool false),
       ("encoding", .str ""),
       ("line_endings", .str "")]) ∧
    goto_line VimState.init 5 "a.go" =
      (.str "Vim not connected to MCP socket", VimState.init) ∧
    add_to_quickfix VimState.init [] =
      (.str "Vim not connected to MCP socket", VimState.init) ∧
    get_current_quickfix_entry VimState.init "id-3" none =
      (.obj [("error", .str "Vim not connected to MCP socket")],
       VimState.init) ∧
    clear_quickfix VimState.init =
      (.str "Vim not connected to MCP socket", VimState.init) ∧
    add_virtual_text VimState.init [] =
      (.str "Vim not connected to MCP socket", VimState.init) ∧
    get_annotations_above_current_position VimState.init "id-3" none =
      (.str "Vim not connected to MCP socket", VimState.init) ∧
    clear_annotations VimState.init none =
      (.str "Vim not connected to MCP socket", VimState.init) ∧
    highlight_text VimState.init [] =
      (.str "Vim not connected to MCP socket", VimState.init) ∧
    clear_highlights VimState.init "" =
      (.str "Vim not connected to MCP socket", VimState.init) :=
  claim_C7 VimState.init rfl 5 "a.go" "" [] [] [] "id-3" none none

/-- C10: processing a `disconnect` message clears the connection flag
and leaves the stored editor context untouched, so `get_context` still
returns the prior snapshot. -/
theorem claim_C10 (s : VimState) (fields : List (String × JValue))
    (hmethod : jget fields "method" = some (JValue.str "disconnect")) :
    get_context (handle_vim_message (.obj fields) s) = get_context s ∧
    is_connected (handle_vim_message (.obj fields) s) = false := by
  have hd : handle_vim_message (.obj fields) s = set_connected s false := by
    simp [handle_vim_message, hmethod]
  rw [hd]
  exact ⟨rfl, rfl⟩

/-- Witness for C10: disconnecting from a connected state with the
initial context keeps `get_context` unchanged. -/
theorem claim_C10_witness :
    get_context (handle_vim_message (.obj [("method", .str "disconnect")])
      (acceptStep VimState.init 0)) =
      get_context (acceptStep VimState.init 0) ∧
    is_connected (handle_vim_message (.obj [("method", .str "disconnect")])
      (acceptStep VimState.init 0)) = false :=
  claim_C10 (acceptStep VimState.init 0) [("method", .str "disconnect")] rfl

/-! ### Concrete wire data for the framing and decoding claims. -/

/-- The parsed disconnect message. -/
def discMsg : JValue := .obj [("method", .str "disconnect")]

/-- The wire text `\x7b"method": "disconnect"\x7d` as characters. -/
def jsonDisconnectText : List Char :=
  ['\x7b', '"', 'm', 'e', 't', 'h', 'o', 'd', '"', ':', ' ',
   '"', 'd', 'i', 's', 'c', 'o', 'n', 'n', 'e', 'c', 't', '"', '\x7d']

/-- The UTF-8 (pure ASCII) bytes of that text followed by a newline. -/
def jsonDisconnectBytes : List Nat :=
  [123, 34, 109, 101, 116, 104, 111, 100, 34, 58, 32,
   34, 100, 105, 115, 99, 111, 110, 110, 101, 99, 116, 34, 125, 10]

/-- A concrete restriction of `json.loads` to the one message above:
exactly the full disconnect text parses, every other string fails. -/
def parseDisc : List Char → Option JValue :=
  fun s => if s = jsonDisconnectText then some discMsg else none

/-- The first ten characters of the disconnect text. -/
def discFragment1 : List Char :=
  ['\x7b', '"', 'm', 'e', 't', 'h', 'o', 'd', '"', ':']

/-- The remaining characters of the disconnect text. -/
def discFragment2 : List Char :=
  [' ', '"', 'd', 'i', 's', 'c', 'o', 'n', 'n', 'e', 'c', 't', '"', '\x7d']

/-- `errors="replace"` decoding is the identity on pure ASCII input. -/
theorem utf8DecodeReplace_ascii (l : List Nat) (h : ∀ b ∈ l, b ≤ 127) :
    utf8DecodeReplace l = l.map Char.ofNat := by
  induction l with
  | nil => rw [utf8DecodeReplace.eq_def]; rfl
  | cons b rest ih =>
      rw [utf8DecodeReplace.eq_def]
      dsimp only
      rw [if_pos (h b (List.mem_cons_self b rest))]
      rw [List.map_cons, ih (fun x hx => h x (List.mem_cons_of_mem b hx))]

/-- The whole-buffer-first framer drops a newline-terminated line that
parses neither whole nor stripped, ending with an empty buffer and
nothing routed. -/
theorem processMainBuffer_droppedLine (parse : List Char → Option JValue)
    (l : List Char) (hnl : '\n' ∉ l)
    (hw : parse (l ++ ['\n']) = none)
    (hl : parse (stripChars l) = none) :
    processMainBuffer parse (l ++ ['\n']) = ([], []) := by
  have hnil : processMainBuffer parse [] = ([], []) := by
    rw [processMainBuffer.eq_def]
  have hline := takeWhile_append_newline hnl
  have hdrop := dropWhile_append_newline hnl
  have hmem : '\n' ∈ l ++ ['\n'] := by simp
  cases l with
  | nil =>
      rw [List.nil_append] at hw hline hdrop hmem ⊢
      rw [processMainBuffer.eq_def]
      dsimp only
      simp only [hw]
      rw [dif_pos hmem]
      simp only [hline, hdrop, List.tail_cons]
      rw [hnil]
      simp [stripChars, List.dropWhile]
  | cons a t =>
      rw [List.cons_append] at hw hline hdrop hmem ⊢
      rw [processMainBuffer.eq_def]
      dsimp only
      simp only [hw]
      rw [dif_pos hmem]
      simp only [hline, hdrop, List.tail_cons]
      rw [hnil]
      by_cases hst : stripChars (a :: t) = []
      · simp [hst]
      · simp [hst, hl]

/-- C2 counterexample: the framer in `socket_server.py` never attempts a
whole-buffer parse.  The complete disconnect message with no newline
terminator parses as one JSON value and is valid, yet that framer
retains the buffer and routes nothing — against the claim that any
whole-buffer-parseable buffer is treated as one message and cleared. -/
theorem claim_C2_counterexample :
    parseDisc jsonDisconnectText = some discMsg ∧
    validate_vim_message discMsg = true ∧
    '\n' ∉ jsonDisconnectText ∧
    processSSBuffer parseDisc jsonDisconnectText =
      (jsonDisconnectText, []) := by
  refine ⟨rfl, rfl, by decide, ?_⟩
  rw [processSSBuffer]
  rw [dif_neg (by decide)]

/-- C2 (amended): the framer in `main.py`'s `listen_to_vim` first tries
to parse the whole accumulated buffer as one JSON value and on success
routes it once and clears the buffer, so a message split across two
reads with no newline terminator is retained after the first read and
routed exactly once after the second; the framer in `socket_server.py`'s
`_listen_to_vim` splits only on newlines, so it also retains such a
buffer but routes nothing until a newline arrives. -/
theorem claim_C2_amended (parse : List Char → Option JValue)
    (buffer c1 c2 : List Char) (m mj : JValue)
    (hne : buffer ≠ []) (hbuf : parse buffer = some m)
    (hnl : '\n' ∉ c1) (hc1 : parse c1 = none)
    (hjoin : parse (c1 ++ c2) = some mj) (hjoinne : c1 ++ c2 ≠ []) :
    processMainBuffer parse buffer = ([], [m]) ∧
    processMainBuffer parse c1 = (c1, []) ∧
    processMainBuffer parse (c1 ++ c2) = ([], [mj]) ∧
    processSSBuffer parse c1 = (c1, []) :=
  ⟨processMainBuffer_whole parse buffer m hne hbuf,
   processMainBuffer_incomplete parse c1 hc1 hnl,
   processMainBuffer_whole parse (c1 ++ c2) mj hjoinne hjoin,
   processSSBuffer_noNewline parse c1 hnl⟩

/-- Witness for the amended C2: the disconnect message whole, and split
after its tenth character. -/
theorem claim_C2_witness :
    processMainBuffer parseDisc jsonDisconnectText = ([], [discMsg]) ∧
    processMainBuffer parseDisc discFragment1 = (discFragment1, []) ∧
    processMainBuffer parseDisc (discFragment1 ++ discFragment2) =
      ([], [discMsg]) ∧
    processSSBuffer parseDisc discFragment1 = (discFragment1, []) :=
  claim_C2_amended parseDisc jsonDisconnectText discFragment1
    discFragment2 discMsg discMsg (by decide) rfl (by decide) rfl rfl
    (by decide)

/-- C8 counterexample: the pump in `main.py` does not decode strictly —
it decodes `errors="replace"`.  After the undecodable chunk `0xFF` the
buffer holds the substituted U+FFFD instead of being left untouched, and
a subsequent well-formed newline-terminated disconnect message on the
same connection is glued to that residue and lost (routed zero times). -/
theorem claim_C8_counterexample :
    utf8DecodeStrict [255] = none ∧
    mainPumpReadStep parseDisc [255] [] =
      .running [replChar] [] ∧
    ([replChar] : List Char) ≠ [] ∧
    mainPumpReadStep parseDisc jsonDisconnectBytes [replChar] =
      .running [] [] := by
  have hrep1 : utf8DecodeReplace [255] = [replChar] := by
    rw [utf8DecodeReplace.eq_def]
    norm_num [isCont]
    rw [utf8DecodeReplace.eq_def]
  have hrep2 : utf8DecodeReplace jsonDisconnectBytes =
      jsonDisconnectText ++ ['\n'] := by
    rw [utf8DecodeReplace_ascii jsonDisconnectBytes (by decide)]
    decide
  have hpm : processMainBuffer parseDisc [replChar] = ([replChar], []) :=
    processMainBuffer_incomplete parseDisc [replChar] rfl (by decide)
  refine ⟨rfl, ?_, by decide, ?_⟩
  · simp only [mainPumpReadStep, hrep1]
    rw [if_neg (by decide : ¬([replChar] : List Char) = [])]
    simp only [List.nil_append]
    rw [hpm]
  · simp only [mainPumpReadStep, hrep2]
    rw [if_neg (by simp : ¬(jsonDisconnectText ++ ['\n'] : List Char) = [])]
    have hb : ([replChar] : List Char) ++ (jsonDisconnectText ++ ['\n']) =
        (replChar :: jsonDisconnectText) ++ ['\n'] := by simp
    rw [hb]
    rw [processMainBuffer_droppedLine parseDisc
      (replChar :: jsonDisconnectText) (by decide) rfl rfl]

/-- C8 (amended): the pump in `socket_server.py` decodes strictly — a
chunk that is not valid UTF-8 is discarded whole, the buffer and
connection are untouched and nothing is routed, and a subsequent
well-formed newline-terminated message on the same connection is still
parsed, validated and routed exactly once; the pump in `main.py`
instead decodes with `errors="replace"` and keeps the substituted text
in its buffer. -/
theorem claim_C8_amended (parse : List Char → Option JValue)
    (chunk chunk2 : List Nat) (buffer msgText : List Char) (m : JValue)
    (hbad : utf8DecodeStrict chunk = none) (hne : chunk ≠ [])
    (hgood : utf8DecodeStrict chunk2 = some (msgText ++ ['\n']))
    (hnl : '\n' ∉ msgText) (hstrip : stripChars msgText ≠ [])
    (hparse : parse (stripChars msgText) = some m)
    (hval : validate_vim_message m = true) :
    ssPumpReadStep parse chunk buffer = .running buffer [] ∧
    ssPumpReadStep parse chunk2 [] = .running [] [m] := by
  constructor
  · simp only [ssPumpReadStep]
    rw [if_neg hne, hbad]
  · have hne2 : chunk2 ≠ [] := by
      intro h
      rw [h] at hgood
      have h0 : utf8DecodeStrict ([] : List Nat) = some [] := rfl
      rw [h0] at hgood
      have h2 := Option.some.inj hgood
      exact absurd h2.symm (by simp)
    simp only [ssPumpReadStep]
    rw [if_neg hne2, hgood]
    simp only [List.nil_append]
    rw [processSSBuffer_singleLine parse msgText m hnl hstrip hparse hval]

/-- Witness for the amended C8: the bad byte `0xFF` against a pending
buffer, then the newline-terminated disconnect message bytes. -/
theorem claim_C8_witness :
    ssPumpReadStep parseDisc [255] jsonDisconnectText =
      .running jsonDisconnectText [] ∧
    ssPumpReadStep parseDisc jsonDisconnectBytes [] =
      .running [] [discMsg] :=
  claim_C8_amended parseDisc [255] jsonDisconnectBytes jsonDisconnectText
    jsonDisconnectText discMsg rfl (by decide) (by decide) (by decide)
    (by decide) rfl rfl

end VimQConnect
